import Mathlib

/-!
# Verification of the coverage scraping tool (code_coverage.py)

Shallow embedding of the coverage tool: the `Package` record, the
coverage-stream parser `test_package` (a single forward pass over the text
lines produced by the external test runner), and the aggregator/reporter
`print_results`.

Modelling conventions:
* Python floats are idealised as exact rationals (`Rat`).  The percentage
  values handled by the tool come from short decimal literals, and the
  `statistics.mean` used by the source computes the mean exactly (it sums
  with `Fraction`s internally), so rational arithmetic is the faithful
  idealisation of the numeric behaviour.
* The external processes (the `catkin config` call, the runner `Popen`, the
  `catkin_test_results` call) are modelled by an event trace plus an input
  line stream: the runner, once started, is the source of the lines the
  parser scans.
* Python exceptions are modelled by an `Except` error type; `sys.exit`
  and normal completion are modelled by an `Outcome` type in the reporter.
* The filesystem probe `hasTestDir(path)` (a directory listing) is
  abstracted into the boolean it returns, stored on the `Package`, exactly
  as the source stores it at construction time (`self.hasTestDir`).
-/

set_option autoImplicit false
set_option maxRecDepth 10000

namespace CodeCoverage

/-- The Python exceptions that the modelled code can raise.
`brokenRegex` is `BrokenRegexException`, `testFailed` is
`TestFailedException`; the others are builtin Python exceptions raised by
primitive operations (`list[i]`, `float(s)`, `x > y`, `a / b`,
`list.remove(x)`). -/
inductive PyError where
  | brokenRegex
  | testFailed
  | indexError
  | valueError
  | typeError
  | zeroDivision
  deriving DecidableEq, Repr

/-- The `Package` class: name, resolved path, line count from the external
line counter, the test-directory flag, and the three coverage fields which
are `None` until the package has been tested (source lines 22-32). -/
structure Package where
  name : String
  path : String
  lineCount : Nat
  hasTestDir : Bool
  coverage_total : Option Rat
  coverage_lines : Option Rat
  coverage_functions : Option Rat
  deriving DecidableEq, Repr

/-- Python truthiness of an `Option Rat` field: `None` and `0.0` are falsy,
every other float is truthy.  Used by `if not pkg.coverage_total:` and
`if not coverage:` in the source. -/
def covTruthy : Option Rat → Bool
  | none => false
  | some x => x ≠ 0

/-! ## The regular-expression models

The source compiles three patterns (lines 67-69):
* `re_failed_test  = r"(?<=Failed: )[0-9]*(?= packages failed.)"`
* `re_coverage_pct = r"Overall coverage rate:"`
* `re_line_pct     = r"\d*\.\d*(?=%)"`

Each is modelled by a function on character lists implementing exactly the
backtracking semantics of the pattern on the ASCII lines the tool scans.
-/

/-- Numeric value of a digit string; the empty string yields `0`
(matching the value `float` gives the integer or fractional part when the
other part carries the information). -/
def digitsVal (ds : List Char) : Nat :=
  ds.foldl (fun a c => 10 * a + (c.toNat - 48)) 0

/-- One attempt of `\d*\.\d*(?=%)` at the start of `cs`.  The greedy `\d*`
with backtracking collapses to the maximal digit runs: a shorter first run
leaves a digit where the literal `.` must be, and a shorter second run
leaves a digit where the lookahead needs `%`.  Returns the two captured
digit runs. -/
def pctMatchAt (cs : List Char) : Option (List Char × List Char) :=
  let d1 := cs.takeWhile Char.isDigit
  let r1 := cs.dropWhile Char.isDigit
  match r1 with
  | '.' :: r2 =>
    let d2 := r2.takeWhile Char.isDigit
    let r3 := r2.dropWhile Char.isDigit
    match r3 with
    | '%' :: _ => some (d1, d2)
    | _ => none
  | _ => none

/-- Leftmost match of `\d*\.\d*(?=%)`: `re.findall` scans the start
positions left to right, and the source reads `matches[0]`. -/
def findPctAux : List Char → Option (List Char × List Char)
  | [] => none
  | c :: cs =>
    match pctMatchAt (c :: cs) with
    | some m => some m
    | none => findPctAux cs

/-- First decimal-percentage match of a line (`re.findall(re_line_pct, line)`
followed by `matches[0]`). -/
def findPctMatch (line : String) : Option (List Char × List Char) :=
  findPctAux line.toList

/-- `float` applied to the matched text `d1 ++ "." ++ d2`.
`float(".")` (both digit runs empty) raises `ValueError`; otherwise the
value is the exact decimal denoted. -/
def pyFloatPct (d1 d2 : List Char) : Except PyError Rat :=
  if d1 = [] ∧ d2 = [] then .error .valueError
  else .ok ((digitsVal d1 : Rat) + (digitsVal d2 : Rat) / ((10 : Rat) ^ d2.length))

/-- Whether the first list is an initial segment of the second. -/
def charsPrefix : List Char → List Char → Bool
  | [], _ => true
  | _ :: _, [] => false
  | p :: ps, c :: cs => p == c && charsPrefix ps cs

/-- `re.match(re_coverage_pct, line)`: the pattern
`"Overall coverage rate:"` is all literal characters and `re.match` anchors
at position 0, so it matches exactly when the line starts with the
pattern. -/
def matchCoverageHeader (line : String) : Bool :=
  charsPrefix "Overall coverage rate:".toList line.toList

/-- The lookbehind text of `re_failed_test`, reversed (the lookbehind
inspects the characters immediately before the match position). -/
def failedLookbehindRev : List Char := "Failed: ".toList.reverse

/-- The literal part of the lookahead `(?= packages failed.)`; the final
`.` of the pattern is the any-character metacharacter (anything but a
newline). -/
def failedLookaheadLit : List Char := " packages failed".toList

/-- One attempt of `(?<=Failed: )[0-9]*(?= packages failed.)` at the
position whose preceding text, reversed, is `rb` and whose remaining text
is `after`.  The greedy `[0-9]*` collapses to the maximal digit run: a
shorter run leaves a digit where the lookahead needs a space.  Returns the
matched digit text. -/
def matchFailedFrom (rb after : List Char) : Option (List Char) :=
  if rb.take 8 = failedLookbehindRev then
    let ds := after.takeWhile Char.isDigit
    let rest := after.dropWhile Char.isDigit
    if rest.take 16 = failedLookaheadLit then
      match rest.drop 16 with
      | c :: _ => if c = '\n' then none else some ds
      | [] => none
    else none
  else none

/-- `re.match(re_failed_test, line)`: a single anchored attempt at
position 0, where the text preceding the match position is empty. -/
def matchFailedTest (line : String) : Option (List Char) :=
  matchFailedFrom [] line.toList

/-- `re.search` semantics for the same pattern (an attempt at every
position, leftmost first).  The source does not call this; it is used to
state that a failure-count line does contain the marker even though the
anchored `re.match` of the source can never see it. -/
def searchFailedAux : List Char → List Char → Option (List Char)
  | rb, after =>
    match matchFailedFrom rb after with
    | some ds => some ds
    | none =>
      match after with
      | [] => none
      | c :: rest => searchFailedAux (c :: rb) rest

/-- `re.search` of the failed-count pattern over a whole line, returning
the captured count. -/
def searchFailedCount (line : String) : Option Nat :=
  (searchFailedAux [] line.toList).map digitsVal

/-! ## The coverage-stream parser (`test_package`, source lines 34-128) -/

/-- The mutable locals of the scanning loop: the `pcts` list, the
`get_pkg_percentages` flag, and the `line_coverage` / `function_coverage`
floats (initialised to `0`). -/
structure ParseState where
  pcts : List Rat
  get_pkg_percentages : Bool
  line_coverage : Rat
  function_coverage : Rat
  deriving DecidableEq, Repr

/-- Initial loop state (source lines 75-78). -/
def initState : ParseState :=
  { pcts := [], get_pkg_percentages := false, line_coverage := 0, function_coverage := 0 }

/-- The percentage-collection block of the loop body (source lines
90-105): when `get_pkg_percentages` is set, the line must contain a
decimal-percentage match (else `BrokenRegexException`); the first match is
converted with `float` and recorded as line coverage when `pcts` is still
empty, and as function coverage (closing the window) otherwise. -/
def collectStep (st : ParseState) (line : String) : Except PyError ParseState :=
  if st.get_pkg_percentages then
    match findPctMatch line with
    | none => .error .brokenRegex
    | some (d1, d2) =>
      match pyFloatPct d1 d2 with
      | .error e => .error e
      | .ok val =>
        if st.pcts.isEmpty then
          .ok { st with line_coverage := val, pcts := st.pcts ++ [val] }
        else
          .ok { st with function_coverage := val, pcts := st.pcts ++ [val],
                        get_pkg_percentages := false }
  else .ok st

/-- The body of `for line in proc.stdout:` (source lines 85-116), in
source order: the percentage-collection block, then the header check, then
the failure-count check.  The failure-count check binds
`num_failed_tests` to the `re.match` result (a match object) when one
exists, so the comparison `num_failed_tests > 0` would raise `TypeError`;
when there is no match the comparison is `0 > 0` and the line is
ignored. -/
def stepLine (st : ParseState) (line : String) : Except PyError ParseState :=
  match collectStep st line with
  | .error e => .error e
  | .ok st1 =>
    let st2 := if matchCoverageHeader line then { st1 with get_pkg_percentages := true } else st1
    if (matchFailedTest line).isSome then .error .typeError else .ok st2

/-- The scanning loop over the runner's output lines. -/
def scanLines : ParseState → List String → Except PyError ParseState
  | st, [] => .ok st
  | st, l :: ls =>
    match stepLine st l with
    | .error e => .error e
    | .ok st' => scanLines st' ls

/-- The post-loop computation (source lines 120-123): `if not pcts:` raises
`BrokenRegexException`; then `mean([pcts[0], pcts[1]])` raises `IndexError`
when only one value was collected, and otherwise is the exact mean of the
first two collected values. -/
def finishParse (st : ParseState) : Except PyError Rat :=
  match st.pcts with
  | [] => .error .brokenRegex
  | [_] => .error .indexError
  | p0 :: p1 :: _ => .ok ((p0 + p1) / 2)

/-- The external invocations `test_package` performs before scanning:
the `catkin config` coverage-instrumentation call (`subprocess.run`,
source line 73) and the runner start (`subprocess.Popen` of the build/test
command, source line 74). -/
inductive ExtCall where
  | configCmd
  | runnerStart
  deriving DecidableEq, Repr

deriving instance DecidableEq for Except

/-- Result of a `test_package` call: the trace of external invocations, the
returned value or raised exception, and the package object after the call
(mutated only on success, source lines 124-126). -/
structure TPResult where
  events : List ExtCall
  result : Except PyError Rat
  pkgOut : Package
  deriving DecidableEq, Repr

/-- `test_package(pkg, ...)` (source lines 34-128) on the line stream the
started runner produces.  The `catkin config` call and the runner `Popen`
happen before the test-directory check (source lines 73-83); when
`hasTestDir(pkg.path)` is false the function returns `0` without scanning
(and without mutating `pkg`).  Otherwise the stream is scanned line by
line; on success the mean of the first two collected percentages is stored
on the package and returned.  (The guard `if not pkg:` at line 59 is a
no-op for a `Package` instance, which is always truthy.) -/
def test_package (pkg : Package) (stream : List String) : TPResult :=
  let events := [ExtCall.configCmd, ExtCall.runnerStart]
  if pkg.hasTestDir = false then
    { events := events, result := .ok 0, pkgOut := pkg }
  else
    match scanLines initState stream with
    | .error e => { events := events, result := .error e, pkgOut := pkg }
    | .ok st =>
      match finishParse st with
      | .error e => { events := events, result := .error e, pkgOut := pkg }
      | .ok total =>
        { events := events, result := .ok total,
          pkgOut := { pkg with
            coverage_lines := some st.line_coverage,
            coverage_functions := some st.function_coverage,
            coverage_total := some total } }

/-! ## The aggregator/reporter (`print_results`, source lines 169-210) -/

/-- The lines `print_results` writes to standard output, structurally (the
numeric fields hold the exact values the source interpolates into the
format strings).  `unavailable` is the line for a package whose
`coverage_total` is falsy; `summary` carries the three stored coverage
fields; `calcLine` is the verbose per-package calculation print;
`totalCoverage` carries `round(total_weighted_coverage, 2)`. -/
inductive OutLine where
  | unavailable (name : String) (path : String)
  | summary (name : String) (path : String)
      (lines : Option Rat) (functions : Option Rat) (total : Option Rat)
  | calcLine (name : String) (cov : Rat) (lineCount : Nat) (totallines : Nat)
  | totalCoverage (rounded : Rat)
  deriving DecidableEq, Repr

/-- How a `print_results` call ends: falls through normally (process exit
code 0 at this step), calls `sys.exit(msg)` (non-zero exit, message on the
error stream), or lets a Python exception propagate. -/
inductive Outcome where
  | exitZero
  | exitMsg (msg : String)
  | raised (e : PyError)
  deriving DecidableEq, Repr

/-- Full observable behaviour of a `print_results` call: the error-stream
lines, the output lines, and how the call ended. -/
structure ReportResult where
  errLines : List String
  outLines : List OutLine
  outcome : Outcome
  deriving DecidableEq, Repr

/-- Equality test used by `packages.remove(pkg)` at source line 181:
`packages` holds `Package` instances while `pkg` ranges over the `unfound`
name strings.  `Package` defines no `__eq__`, so a `Package` instance never
compares equal to a `str` (Python falls back to identity-based equality
across distinct types, which is `False`). -/
def pkgEqStr (_p : Package) (_s : String) : Bool := false

/-- Python `list.remove(x)`: removes the first element comparing equal to
`x`, raising `ValueError` when none does. -/
def pyListRemove : List Package → String → Except PyError (List Package)
  | [], _ => .error .valueError
  | p :: ps, x =>
    if pkgEqStr p x then .ok ps
    else
      match pyListRemove ps x with
      | .error e => .error e
      | .ok ps' => .ok (p :: ps')

/-- The unfound-packages loop (source lines 179-181): one diagnostic line
per unfound name on the error stream, then `packages.remove(pkg)`.
Returns the diagnostics emitted so far and either the remaining package
list or the exception that aborted the loop. -/
def unfoundPhase : List Package → List String → List String × Except PyError (List Package)
  | pkgs, [] => ([], .ok pkgs)
  | pkgs, u :: us =>
    let diag := "Package not found: " ++ u
    match pyListRemove pkgs u with
    | .error e => ([diag], .error e)
    | .ok pkgs' =>
      let (ds, r) := unfoundPhase pkgs' us
      (diag :: ds, r)

/-- The summary loop (source lines 189-195): a package with falsy
`coverage_total` gets an unavailable line; otherwise its summary is
printed, its `lineCount` added to `totallines`, and it is appended to
`valid_packages`.  Returns (output lines, `totallines`, `valid_packages`). -/
def summaryPhase : List Package → List OutLine × Nat × List Package
  | [] => ([], 0, [])
  | p :: ps =>
    let (ls, t, v) := summaryPhase ps
    if covTruthy p.coverage_total then
      (.summary p.name p.path p.coverage_lines p.coverage_functions p.coverage_total :: ls,
       p.lineCount + t, p :: v)
    else
      (.unavailable p.name p.path :: ls, t, v)

/-- The calculation loop (source lines 197-200):
`total_weighted_coverage += float(pkg.lineCount) / float(totallines) *
float(pkg.coverage_total)`.  Python float division raises
`ZeroDivisionError` when `totallines` is `0` (also for `0.0 / 0.0`).
Every package in `valid_packages` has truthy (hence set) `coverage_total`,
so `float(pkg.coverage_total)` is its value, written `getD 0` here.
Returns the verbose calculation lines and the accumulated sum. -/
def weightedPhase (valid : List Package) (totallines : Nat) (verbose : Bool) (acc : Rat) :
    List OutLine × Except PyError Rat :=
  match valid with
  | [] => ([], .ok acc)
  | p :: ps =>
    let lines := if verbose then [OutLine.calcLine p.name (p.coverage_total.getD 0) p.lineCount totallines] else []
    if totallines = 0 then (lines, .error .zeroDivision)
    else
      let (ls, r) := weightedPhase ps totallines verbose
        (acc + (p.lineCount : Rat) / (totallines : Rat) * p.coverage_total.getD 0)
      (lines ++ ls, r)

/-- Python `round(y)` (round half to even) applied to a rational. -/
def pyRoundHalfEven (y : Rat) : Int :=
  let n := ⌊y⌋
  let f := y - n
  if f < 1 / 2 then n
  else if 1 / 2 < f then n + 1
  else if n % 2 = 0 then n else n + 1

/-- Python `round(x, 2)` on a rational: round half to even at two decimal
places. -/
def pyRound2 (x : Rat) : Rat := (pyRoundHalfEven (x * 100) : Rat) / 100

/-- The `sys.exit` message of the threshold check (source line 210); the
threshold comes from `--threshold` as an `int`, and `round(int, 2)` is the
int itself. -/
def thresholdMsg (t : Int) : String :=
  "Resulting total coverage is below threshold of " ++ toString t ++
    "%. Script exited with exit code 1."

/-- The threshold check (source lines 209-210): `if threshold and
total_weighted_coverage < threshold:`.  `threshold` is `None` when the
flag was not given and an `int` otherwise; `None` and `0` are falsy. -/
def thresholdOutcome (threshold : Option Int) (twc : Rat) : Outcome :=
  match threshold with
  | none => .exitZero
  | some t => if t ≠ 0 ∧ twc < (t : Rat) then .exitMsg (thresholdMsg t) else .exitZero

/-- `print_results(packages, unfound, failed, threshold, verbose)`
(source lines 169-210).  The `failed` and `summaries` parameters are
accepted by the source but never used in the body; `failed` is kept here
for signature fidelity.  The `catkin_test_results` subprocess (source
lines 203-207) is informational only (its output is echoed when verbose
and never parsed) and is not part of the observable result modelled
here. -/
def print_results (packages : List Package) (unfound : List String)
    (_failed : List String) (threshold : Option Int) (verbose : Bool) : ReportResult :=
  let (diags, rem) := unfoundPhase packages unfound
  match rem with
  | .error e => { errLines := diags, outLines := [], outcome := .raised e }
  | .ok pkgs =>
    if pkgs.isEmpty then
      { errLines := diags, outLines := [],
        outcome := .exitMsg "Error: no coverage data generated for given list of packages" }
    else
      let (sumLines, totallines, valid) := summaryPhase pkgs
      match weightedPhase valid totallines verbose 0 with
      | (calcLines, .error e) =>
        { errLines := diags, outLines := sumLines ++ calcLines, outcome := .raised e }
      | (calcLines, .ok twc) =>
        { errLines := diags,
          outLines := sumLines ++ calcLines ++ [OutLine.totalCoverage (pyRound2 twc)],
          outcome := thresholdOutcome threshold twc }

/-! ## The per-package body of the main loop (source lines 243-253) -/

/-- Observable outcome of one iteration of the testing loop in
`__main__`. -/
inductive MainStepOut where
  | exitNoData (name : String)
  | tested (cov : Rat)
  | passedOver (name : String)
  | failedRecorded
  | raised (e : PyError)
  deriving DecidableEq, Repr

/-- One iteration of `for pkg in test_packages:` (source lines 243-253):
when the package has a test directory, run `test_package`; a falsy
(i.e. `0.0`) returned coverage triggers
`sys.exit("Error: no coverage data obtained for package ...")`;
`TestFailedException` is caught and the package recorded as failed; any
other exception propagates.  A package without a test directory is passed
over with a message. -/
def main_step (pkg : Package) (stream : List String) : MainStepOut :=
  if pkg.hasTestDir then
    match (test_package pkg stream).result with
    | .ok cov => if cov = 0 then .exitNoData pkg.name else .tested cov
    | .error .testFailed => .failedRecorded
    | .error e => .raised e
  else .passedOver pkg.name

/-- Modelled from the spec: the weighted total as §4.3 words it, a sum
over exactly the packages "with a set `coverageTotal`" (set meaning not
`None`, per the §3 data model), with `totalLines` summed over that same
set.  Compared against the computation of `print_results`. -/
def specWeightedTotal (pkgs : List Package) : Rat :=
  let included := pkgs.filter fun p => p.coverage_total.isSome
  let totalL : Nat := (included.map Package.lineCount).sum
  (included.map fun p => (p.lineCount : Rat) / (totalL : Rat) * p.coverage_total.getD 0).sum

/-- The loop invariant tying the `line_coverage` and `function_coverage`
locals to the `pcts` list: `line_coverage` is the first collected value
and `function_coverage` the last collected value after the first (each
defaulting to `0`). -/
def pctsInv (st : ParseState) : Prop :=
  st.line_coverage = st.pcts.headD 0 ∧ st.function_coverage = (st.pcts.drop 1).getLastD 0

/-! ## Concrete fixtures

Packages and recorded streams used to instantiate the theorems below. -/

/-- A freshly resolved package with a test directory. -/
def pkgTested : Package :=
  { name := "pkg", path := "/ws/pkg", lineCount := 100, hasTestDir := true,
    coverage_total := none, coverage_lines := none, coverage_functions := none }

/-- A package without a test directory. -/
def pkgNoTests : Package :=
  { name := "nt", path := "/ws/nt", lineCount := 50, hasTestDir := false,
    coverage_total := none, coverage_lines := none, coverage_functions := none }

/-- A tested package: 100 lines, 80% total coverage. -/
def pkgCov80 : Package :=
  { name := "a", path := "/ws/a", lineCount := 100, hasTestDir := true,
    coverage_total := some 80, coverage_lines := some 80, coverage_functions := some 80 }

/-- A tested package: 300 lines, 40% total coverage. -/
def pkgCov40 : Package :=
  { name := "b", path := "/ws/b", lineCount := 300, hasTestDir := true,
    coverage_total := some 40, coverage_lines := some 40, coverage_functions := some 40 }

/-- A tested package whose stored total coverage is exactly 0.0. -/
def pkgCov0 : Package :=
  { name := "z", path := "/ws/z", lineCount := 100, hasTestDir := true,
    coverage_total := some 0, coverage_lines := some 0, coverage_functions := some 0 }

/-- A tested package with no countable implementation lines. -/
def pkgNoLines : Package :=
  { name := "w", path := "/ws/w", lineCount := 0, hasTestDir := true,
    coverage_total := some 50, coverage_lines := some 50, coverage_functions := some 50 }

/-- A well-formed runner output stream: header then two percentage
lines. -/
def streamTwo : List String :=
  ["Overall coverage rate:", "  lines......: 10.0%", "  functions..: 20.0%"]

/-- A stream with a spurious repeated header followed by one more
percentage line. -/
def streamSpurious : List String :=
  ["Overall coverage rate:", "10.0%", "20.0%", "Overall coverage rate:", "30.0%"]

/-- A complete coverage block followed by a failed-packages report
line. -/
def streamFailure : List String :=
  ["Overall coverage rate:", "10.0%", "20.0%", "Failed: 3 packages failed."]

/-- A stream whose header is followed by a single percentage line before
the runner exits. -/
def streamOneValue : List String :=
  ["Overall coverage rate:", "10.0%"]

/-- A stream in which both percentages are 0.0. -/
def streamZeros : List String :=
  ["Overall coverage rate:", "0.0%", "0.0%"]

/-! ## Parser lemmas -/

/-- The anchored `re.match` of the failed-count pattern never succeeds:
the lookbehind needs eight characters before the match position, and at
position 0 there are none. -/
theorem matchFailedTest_eq_none (line : String) : matchFailedTest line = none := by
  unfold matchFailedTest matchFailedFrom
  rw [if_neg (by decide)]

/-- `float` on a percentage match either raises `ValueError` (both digit
runs empty) or yields the decimal value; in particular it never raises
`BrokenRegexException`. -/
theorem pyFloatPct_error (d1 d2 : List Char) (e : PyError)
    (h : pyFloatPct d1 d2 = .error e) : e = PyError.valueError := by
  unfold pyFloatPct at h
  split at h
  · exact ((Except.error.injEq _ _).mp h).symm
  · exact absurd h (by simp)

/-- `BrokenRegexException` arises in the percentage-collection block
exactly when the percentage flag is up and the line has no
decimal-percentage match. -/
theorem collectStep_brokenRegex_iff (st : ParseState) (line : String) :
    collectStep st line = .error .brokenRegex ↔
      st.get_pkg_percentages = true ∧ findPctMatch line = none := by
  by_cases hg : st.get_pkg_percentages
  · rcases hm : findPctMatch line with _ | ⟨d1, d2⟩
    · simp [collectStep, hg, hm]
    · rcases hf : pyFloatPct d1 d2 with e | val
      · have he := pyFloatPct_error d1 d2 e hf
        subst he
        simp [collectStep, hg, hm, hf]
      · by_cases hp : st.pcts.isEmpty <;> simp [collectStep, hg, hm, hf, hp]
  · simp [collectStep, hg]

/-- `stepLine` fails exactly when the collection block fails (the header
check cannot fail, and the failure-count check never fires because its
anchored `re.match` never succeeds). -/
theorem stepLine_error_iff (st : ParseState) (line : String) (e : PyError) :
    stepLine st line = .error e ↔ collectStep st line = .error e := by
  unfold stepLine
  rw [matchFailedTest_eq_none]
  cases hc : collectStep st line with
  | error e' => simp
  | ok st1 => simp

/-- Shape of a successful `stepLine`: the collection block succeeded and
the header check possibly raised the flag. -/
theorem stepLine_ok (st st' : ParseState) (line : String)
    (h : stepLine st line = .ok st') :
    ∃ st1, collectStep st line = .ok st1 ∧
      st' = if matchCoverageHeader line then { st1 with get_pkg_percentages := true } else st1 := by
  unfold stepLine at h
  rw [matchFailedTest_eq_none] at h
  cases hc : collectStep st line with
  | error e' => rw [hc] at h; exact absurd h (by simp)
  | ok st1 =>
    rw [hc] at h
    simp only [Option.isSome_none, Bool.false_eq_true, if_false, Except.ok.injEq] at h
    exact ⟨st1, rfl, h.symm⟩

/-- Shape of a successful collection block: either the flag was down and
the state is unchanged, or a value was appended. -/
theorem collectStep_ok (st st' : ParseState) (line : String)
    (h : collectStep st line = .ok st') :
    (st.get_pkg_percentages = false ∧ st' = st) ∨
    (∃ val, st.get_pkg_percentages = true ∧
      ((st.pcts = [] ∧ st' = { st with line_coverage := val, pcts := [val] }) ∨
       (st.pcts ≠ [] ∧ st' = { st with function_coverage := val, pcts := st.pcts ++ [val],
                                        get_pkg_percentages := false }))) := by
  by_cases hg : st.get_pkg_percentages
  · rcases hm : findPctMatch line with _ | ⟨d1, d2⟩
    · simp [collectStep, hg, hm] at h
    · rcases hf : pyFloatPct d1 d2 with e | val
      · simp [collectStep, hg, hm, hf] at h
      · by_cases hp : st.pcts.isEmpty
        · have hnil : st.pcts = [] := List.isEmpty_iff.mp hp
          simp [collectStep, hg, hm, hf, hp, hnil] at h
          refine Or.inr ⟨val, hg, Or.inl ⟨hnil, ?_⟩⟩
          rw [hg]
          exact h.symm
        · have hne : st.pcts ≠ [] := fun hc => hp (by simp [hc])
          simp [collectStep, hg, hm, hf, hp] at h
          exact Or.inr ⟨val, hg, Or.inr ⟨hne, h.symm⟩⟩
  · simp [collectStep, hg] at h
    exact Or.inl ⟨Bool.not_eq_true _ ▸ hg, h.symm⟩

/-- A line that is not a coverage-rate header leaves a down-flag state
unchanged: the percentage branch is skipped, the header check fails, and
the failure-count check never fires. -/
theorem stepLine_inert {st : ParseState} {line : String}
    (hg : st.get_pkg_percentages = false) (hh : matchCoverageHeader line = false) :
    stepLine st line = .ok st := by
  unfold stepLine collectStep
  rw [matchFailedTest_eq_none]
  simp [hg, hh]

/-- A stream containing no coverage-rate header leaves a down-flag state
unchanged. -/
theorem scanLines_no_header {ls : List String}
    (h : ∀ l ∈ ls, matchCoverageHeader l = false) (st : ParseState)
    (hg : st.get_pkg_percentages = false) :
    scanLines st ls = .ok st := by
  induction ls with
  | nil => rfl
  | cons l ls ih =>
    rw [scanLines, stepLine_inert hg (h l (by simp))]
    exact ih (fun x hx => h x (by simp [hx]))

theorem pctsInv_init : pctsInv initState := ⟨rfl, rfl⟩

/-- `collectStep` preserves the invariant. -/
theorem collectStep_inv {st st' : ParseState} {line : String}
    (h : collectStep st line = .ok st') (hinv : pctsInv st) : pctsInv st' := by
  obtain ⟨h1, h2⟩ := hinv
  rcases collectStep_ok st st' line h with ⟨-, rfl⟩ | ⟨val, -, ⟨hnil, rfl⟩ | ⟨hne, rfl⟩⟩
  · exact ⟨h1, h2⟩
  · refine ⟨rfl, ?_⟩
    simp only [hnil] at h2
    simpa using h2
  · obtain ⟨p, rest, hcons⟩ : ∃ p rest, st.pcts = p :: rest := by
      cases hpc : st.pcts with
      | nil => exact absurd hpc hne
      | cons p rest => exact ⟨p, rest, rfl⟩
    constructor
    · simp only [hcons] at h1 ⊢
      simpa using h1
    · simp [hcons, List.getLastD_concat]

/-- `stepLine` preserves the invariant (the header check only touches the
flag). -/
theorem stepLine_inv {st st' : ParseState} {line : String}
    (h : stepLine st line = .ok st') (hinv : pctsInv st) : pctsInv st' := by
  obtain ⟨st1, hc, hst'⟩ := stepLine_ok st st' line h
  have h1 := collectStep_inv hc hinv
  by_cases hh : matchCoverageHeader line
  · rw [hst', if_pos hh]
    exact ⟨h1.1, h1.2⟩
  · rw [hst', if_neg hh]
    exact h1

/-- `scanLines` preserves the invariant. -/
theorem scanLines_inv {ls : List String} {st st' : ParseState}
    (h : scanLines st ls = .ok st') (hinv : pctsInv st) : pctsInv st' := by
  induction ls generalizing st with
  | nil =>
    unfold scanLines at h
    cases h
    exact hinv
  | cons l ls ih =>
    unfold scanLines at h
    cases hstep : stepLine st l with
    | error e => rw [hstep] at h; exact absurd h (by simp)
    | ok st1 =>
      rw [hstep] at h
      exact ih h (stepLine_inv hstep hinv)

/-- A package without a test directory short-circuits after the two
external invocations: result 0, package unmutated. -/
theorem test_package_skip (pkg : Package) (stream : List String)
    (h : pkg.hasTestDir = false) :
    test_package pkg stream =
      { events := [ExtCall.configCmd, ExtCall.runnerStart],
        result := .ok 0, pkgOut := pkg } := by
  unfold test_package
  rw [h]
  simp

/-- `finishParse` raises `BrokenRegexException` exactly when no value was
collected; a single collected value raises `IndexError` instead. -/
theorem finishParse_brokenRegex_iff (st : ParseState) :
    finishParse st = .error .brokenRegex ↔ st.pcts = [] := by
  unfold finishParse
  rcases hp : st.pcts with _ | ⟨p0, _ | ⟨p1, rest⟩⟩ <;> simp

/-- Anatomy of a successful `test_package` run: the result is the mean of
the first two collected values, the stored line coverage is the first
collected value, and the stored function coverage is the last collected
value after the first. -/
theorem test_package_success (pkg : Package) (stream : List String)
    (st : ParseState) (p0 p1 : Rat) (rest : List Rat)
    (htd : pkg.hasTestDir = true)
    (hscan : scanLines initState stream = .ok st)
    (hpcts : st.pcts = p0 :: p1 :: rest) :
    (test_package pkg stream).result = .ok ((p0 + p1) / 2) ∧
    (test_package pkg stream).pkgOut.coverage_lines = some p0 ∧
    (test_package pkg stream).pkgOut.coverage_functions = some ((p1 :: rest).getLastD 0) ∧
    (test_package pkg stream).pkgOut.coverage_total = some ((p0 + p1) / 2) := by
  obtain ⟨h1, h2⟩ := scanLines_inv hscan pctsInv_init
  have hfin : finishParse st = .ok ((p0 + p1) / 2) := by
    unfold finishParse
    rw [hpcts]
  have hlc : st.line_coverage = p0 := by rw [h1, hpcts]; rfl
  have hfc : st.function_coverage = (p1 :: rest).getLastD 0 := by
    rw [h2, hpcts]; rfl
  unfold test_package
  rw [htd, hscan]
  simp [hfin, hlc, hfc]

/-! ## Evaluation lemmas for concrete runs

Rational arithmetic does not reduce definitionally, so concrete runs are
evaluated through these small stepping lemmas plus `norm_num` for the
arithmetic. -/

theorem pyFloatPct_val (d1 d2 : List Char) (n1 n2 : Nat)
    (hne : ¬(d1 = [] ∧ d2 = []))
    (h1 : digitsVal d1 = n1) (h2 : digitsVal d2 = n2) :
    pyFloatPct d1 d2 = .ok ((n1 : Rat) + (n2 : Rat) / (10 : Rat) ^ d2.length) := by
  unfold pyFloatPct
  rw [if_neg hne, h1, h2]

theorem pyFloatPct_ten : pyFloatPct ['1', '0'] ['0'] = .ok 10 := by
  rw [pyFloatPct_val ['1', '0'] ['0'] 10 0 (by simp) (by decide) (by decide)]
  norm_num

theorem pyFloatPct_twenty : pyFloatPct ['2', '0'] ['0'] = .ok 20 := by
  rw [pyFloatPct_val ['2', '0'] ['0'] 20 0 (by simp) (by decide) (by decide)]
  norm_num

theorem pyFloatPct_thirty : pyFloatPct ['3', '0'] ['0'] = .ok 30 := by
  rw [pyFloatPct_val ['3', '0'] ['0'] 30 0 (by simp) (by decide) (by decide)]
  norm_num

theorem pyFloatPct_zero : pyFloatPct ['0'] ['0'] = .ok 0 := by
  rw [pyFloatPct_val ['0'] ['0'] 0 0 (by simp) (by decide) (by decide)]
  norm_num

/-- A header line seen with the flag down raises the flag. -/
theorem stepLine_header (st : ParseState) (line : String)
    (hg : st.get_pkg_percentages = false) (hh : matchCoverageHeader line = true) :
    stepLine st line = .ok { st with get_pkg_percentages := true } := by
  simp [stepLine, collectStep, matchFailedTest_eq_none, hg, hh]

/-- A percentage line seen with the flag up and no collected values yet
records line coverage. -/
theorem stepLine_collect_first (st : ParseState) (line : String)
    (d1 d2 : List Char) (val : Rat)
    (hg : st.get_pkg_percentages = true) (hp : st.pcts = [])
    (hm : findPctMatch line = some (d1, d2)) (hv : pyFloatPct d1 d2 = .ok val)
    (hh : matchCoverageHeader line = false) :
    stepLine st line = .ok { st with line_coverage := val, pcts := [val] } := by
  simp [stepLine, collectStep, matchFailedTest_eq_none, hg, hp, hm, hv, hh]

/-- A percentage line seen with the flag up and some collected value
records function coverage and closes the window. -/
theorem stepLine_collect_next (st : ParseState) (line : String)
    (d1 d2 : List Char) (val : Rat)
    (hg : st.get_pkg_percentages = true) (hp : st.pcts.isEmpty = false)
    (hm : findPctMatch line = some (d1, d2)) (hv : pyFloatPct d1 d2 = .ok val)
    (hh : matchCoverageHeader line = false) :
    stepLine st line = .ok { st with function_coverage := val, pcts := st.pcts ++ [val],
                                     get_pkg_percentages := false } := by
  simp [stepLine, collectStep, matchFailedTest_eq_none, hg, hp, hm, hv, hh]

theorem scanLines_cons (st st1 : ParseState) (l : String) (ls : List String)
    (h : stepLine st l = .ok st1) : scanLines st (l :: ls) = scanLines st1 ls := by
  rw [scanLines, h]

theorem scanLines_nil (st : ParseState) : scanLines st [] = .ok st := rfl

theorem scan_streamTwo :
    scanLines initState streamTwo =
      .ok ⟨[10, 20], false, 10, 20⟩ := by
  have h1 : stepLine ⟨[], false, 0, 0⟩ "Overall coverage rate:" = .ok ⟨[], true, 0, 0⟩ :=
    stepLine_header _ _ rfl (by decide)
  have h2 : stepLine ⟨[], true, 0, 0⟩ "  lines......: 10.0%" = .ok ⟨[10], true, 10, 0⟩ :=
    stepLine_collect_first _ _ ['1', '0'] ['0'] 10 rfl rfl (by decide) pyFloatPct_ten (by decide)
  have h3 : stepLine ⟨[10], true, 10, 0⟩ "  functions..: 20.0%" = .ok ⟨[10, 20], false, 10, 20⟩ :=
    stepLine_collect_next _ _ ['2', '0'] ['0'] 20 rfl rfl (by decide) pyFloatPct_twenty (by decide)
  show scanLines ⟨[], false, 0, 0⟩
    ["Overall coverage rate:", "  lines......: 10.0%", "  functions..: 20.0%"] = _
  rw [scanLines_cons _ _ _ _ h1, scanLines_cons _ _ _ _ h2, scanLines_cons _ _ _ _ h3,
      scanLines_nil]

theorem scan_streamSpurious :
    scanLines initState streamSpurious =
      .ok ⟨[10, 20, 30], false, 10, 30⟩ := by
  have h1 : stepLine ⟨[], false, 0, 0⟩ "Overall coverage rate:" = .ok ⟨[], true, 0, 0⟩ :=
    stepLine_header _ _ rfl (by decide)
  have h2 : stepLine ⟨[], true, 0, 0⟩ "10.0%" = .ok ⟨[10], true, 10, 0⟩ :=
    stepLine_collect_first _ _ ['1', '0'] ['0'] 10 rfl rfl (by decide) pyFloatPct_ten (by decide)
  have h3 : stepLine ⟨[10], true, 10, 0⟩ "20.0%" = .ok ⟨[10, 20], false, 10, 20⟩ :=
    stepLine_collect_next _ _ ['2', '0'] ['0'] 20 rfl rfl (by decide) pyFloatPct_twenty (by decide)
  have h4 : stepLine ⟨[10, 20], false, 10, 20⟩ "Overall coverage rate:" =
      .ok ⟨[10, 20], true, 10, 20⟩ :=
    stepLine_header _ _ rfl (by decide)
  have h5 : stepLine ⟨[10, 20], true, 10, 20⟩ "30.0%" = .ok ⟨[10, 20, 30], false, 10, 30⟩ :=
    stepLine_collect_next _ _ ['3', '0'] ['0'] 30 rfl rfl (by decide) pyFloatPct_thirty (by decide)
  show scanLines ⟨[], false, 0, 0⟩
    ["Overall coverage rate:", "10.0%", "20.0%", "Overall coverage rate:", "30.0%"] = _
  rw [scanLines_cons _ _ _ _ h1, scanLines_cons _ _ _ _ h2, scanLines_cons _ _ _ _ h3,
      scanLines_cons _ _ _ _ h4, scanLines_cons _ _ _ _ h5, scanLines_nil]

theorem scan_streamFailure :
    scanLines initState streamFailure =
      .ok ⟨[10, 20], false, 10, 20⟩ := by
  have h1 : stepLine ⟨[], false, 0, 0⟩ "Overall coverage rate:" = .ok ⟨[], true, 0, 0⟩ :=
    stepLine_header _ _ rfl (by decide)
  have h2 : stepLine ⟨[], true, 0, 0⟩ "10.0%" = .ok ⟨[10], true, 10, 0⟩ :=
    stepLine_collect_first _ _ ['1', '0'] ['0'] 10 rfl rfl (by decide) pyFloatPct_ten (by decide)
  have h3 : stepLine ⟨[10], true, 10, 0⟩ "20.0%" = .ok ⟨[10, 20], false, 10, 20⟩ :=
    stepLine_collect_next _ _ ['2', '0'] ['0'] 20 rfl rfl (by decide) pyFloatPct_twenty (by decide)
  have h4 : stepLine ⟨[10, 20], false, 10, 20⟩ "Failed: 3 packages failed." =
      .ok ⟨[10, 20], false, 10, 20⟩ :=
    stepLine_inert rfl (by decide)
  show scanLines ⟨[], false, 0, 0⟩
    ["Overall coverage rate:", "10.0%", "20.0%", "Failed: 3 packages failed."] = _
  rw [scanLines_cons _ _ _ _ h1, scanLines_cons _ _ _ _ h2, scanLines_cons _ _ _ _ h3,
      scanLines_cons _ _ _ _ h4, scanLines_nil]

theorem scan_streamOneValue :
    scanLines initState streamOneValue =
      .ok ⟨[10], true, 10, 0⟩ := by
  have h1 : stepLine ⟨[], false, 0, 0⟩ "Overall coverage rate:" = .ok ⟨[], true, 0, 0⟩ :=
    stepLine_header _ _ rfl (by decide)
  have h2 : stepLine ⟨[], true, 0, 0⟩ "10.0%" = .ok ⟨[10], true, 10, 0⟩ :=
    stepLine_collect_first _ _ ['1', '0'] ['0'] 10 rfl rfl (by decide) pyFloatPct_ten (by decide)
  show scanLines ⟨[], false, 0, 0⟩ ["Overall coverage rate:", "10.0%"] = _
  rw [scanLines_cons _ _ _ _ h1, scanLines_cons _ _ _ _ h2, scanLines_nil]

theorem scan_streamZeros :
    scanLines initState streamZeros =
      .ok ⟨[0, 0], false, 0, 0⟩ := by
  have h1 : stepLine ⟨[], false, 0, 0⟩ "Overall coverage rate:" = .ok ⟨[], true, 0, 0⟩ :=
    stepLine_header _ _ rfl (by decide)
  have h2 : stepLine ⟨[], true, 0, 0⟩ "0.0%" = .ok ⟨[0], true, 0, 0⟩ :=
    stepLine_collect_first _ _ ['0'] ['0'] 0 rfl rfl (by decide) pyFloatPct_zero (by decide)
  have h3 : stepLine ⟨[0], true, 0, 0⟩ "0.0%" = .ok ⟨[0, 0], false, 0, 0⟩ :=
    stepLine_collect_next _ _ ['0'] ['0'] 0 rfl rfl (by decide) pyFloatPct_zero (by decide)
  show scanLines ⟨[], false, 0, 0⟩ ["Overall coverage rate:", "0.0%", "0.0%"] = _
  rw [scanLines_cons _ _ _ _ h1, scanLines_cons _ _ _ _ h2, scanLines_cons _ _ _ _ h3,
      scanLines_nil]

/-! ## Reporter lemmas -/

/-- `list.remove(x)` on a package list with a string argument always
raises `ValueError`: no `Package` instance compares equal to a `str`. -/
theorem pyListRemove_error (l : List Package) (s : String) :
    pyListRemove l s = .error .valueError := by
  induction l with
  | nil => rfl
  | cons p ps ih => simp [pyListRemove, pkgEqStr, ih]

/-- The `valid_packages` list built by the summary loop is exactly the
sublist of packages with truthy `coverage_total`. -/
theorem summaryPhase_valid (pkgs : List Package) :
    (summaryPhase pkgs).2.2 = pkgs.filter fun p => covTruthy p.coverage_total := by
  induction pkgs with
  | nil => rfl
  | cons p ps ih =>
    by_cases hp : covTruthy p.coverage_total <;>
      simp [summaryPhase, hp, List.filter_cons, ih]

/-- The `totallines` accumulator of the summary loop is the sum of the
line counts of the packages with truthy `coverage_total`. -/
theorem summaryPhase_totallines (pkgs : List Package) :
    (summaryPhase pkgs).2.1 =
      ((pkgs.filter fun p => covTruthy p.coverage_total).map Package.lineCount).sum := by
  induction pkgs with
  | nil => rfl
  | cons p ps ih =>
    by_cases hp : covTruthy p.coverage_total <;>
      simp [summaryPhase, hp, List.filter_cons, ih]

/-- With a non-zero `totallines`, one step of the calculation loop folds
the head package's term into the accumulator. -/
theorem weightedPhase_snd_cons (p : Package) (ps : List Package) (tl : Nat)
    (acc : Rat) (h : tl ≠ 0) :
    (weightedPhase (p :: ps) tl false acc).2 =
      (weightedPhase ps tl false
        (acc + (p.lineCount : Rat) / (tl : Rat) * p.coverage_total.getD 0)).2 := by
  simp only [weightedPhase, Bool.false_eq_true, if_false, h]

/-- With a non-zero `totallines` the calculation loop never raises and
computes the weighted sum (no verbose output). -/
theorem weightedPhase_ok (valid : List Package) (totallines : Nat)
    (h : totallines ≠ 0) :
    ∀ acc : Rat, weightedPhase valid totallines false acc =
      ([], .ok (acc + (valid.map fun p =>
        (p.lineCount : Rat) / (totallines : Rat) * p.coverage_total.getD 0).sum)) := by
  induction valid with
  | nil => intro acc; simp [weightedPhase]
  | cons p ps ih =>
    intro acc
    simp only [weightedPhase, Bool.false_eq_true, if_false, h]
    rw [ih]
    simp [add_assoc]

/-- The weighted sum is non-negative whenever the accumulator and every
included coverage value are. -/
theorem weightedPhase_nonneg (valid : List Package) (tl : Nat) :
    ∀ acc twc : Rat, 0 ≤ acc →
      (∀ p ∈ valid, 0 ≤ p.coverage_total.getD 0) →
      (weightedPhase valid tl false acc).2 = .ok twc → 0 ≤ twc := by
  induction valid with
  | nil =>
    intro acc twc hacc _ h
    simp [weightedPhase] at h
    exact h ▸ hacc
  | cons p ps ih =>
    intro acc twc hacc hall h
    by_cases htl : tl = 0
    · subst htl
      simp [weightedPhase] at h
    · rw [weightedPhase_snd_cons p ps tl acc htl] at h
      refine ih _ twc ?_ (fun q hq => hall q (List.mem_cons_of_mem _ hq)) h
      have h0 : (0 : Rat) ≤ (p.lineCount : Rat) / (tl : Rat) * p.coverage_total.getD 0 := by
        apply mul_nonneg
        · apply div_nonneg <;> positivity
        · exact hall p (List.mem_cons_self _ _)
      linarith

/-- A zero-`lineCount` package contributes nothing to the weighted sum
when `totallines` is non-zero. -/
theorem weightedPhase_zero_head (p : Package) (ps : List Package) (tl : Nat)
    (acc : Rat) (htl : tl ≠ 0) (hp : p.lineCount = 0) :
    (weightedPhase (p :: ps) tl false acc).2 = (weightedPhase ps tl false acc).2 := by
  rw [weightedPhase_snd_cons p ps tl acc htl, hp]
  norm_num

/-- With `totallines = 0` and at least one included package, the first
division raises `ZeroDivisionError`. -/
theorem weightedPhase_zero_totallines (p : Package) (ps : List Package)
    (v : Bool) (acc : Rat) :
    (weightedPhase (p :: ps) 0 v acc).2 = .error .zeroDivision := by
  simp [weightedPhase]

/-! ## Reporter evaluation lemmas -/

theorem covTruthy_some_ne {x : Rat} (h : x ≠ 0) : covTruthy (some x) = true := by
  simp [covTruthy, h]

theorem covTruthy_some_zero : covTruthy (some 0) = false := by
  simp [covTruthy]

/-- The summary loop on a package with falsy `coverage_total`: reported
unavailable, excluded from `totallines` and from `valid_packages`. -/
theorem summaryPhase_cons_untruthy (p : Package) (rest : List Package)
    (h : covTruthy p.coverage_total = false) :
    summaryPhase (p :: rest) =
      (OutLine.unavailable p.name p.path :: (summaryPhase rest).1,
       (summaryPhase rest).2.1, (summaryPhase rest).2.2) := by
  rcases hs : summaryPhase rest with ⟨ls, t, v⟩
  simp [summaryPhase, h, hs]

/-- `round(x, 2)` on an integral value is the value itself. -/
theorem pyRound2_intCast (m : Int) : pyRound2 (m : Rat) = m := by
  have h1 : ((m : Rat) * 100) = ((m * 100 : Int) : Rat) := by push_cast; ring
  unfold pyRound2 pyRoundHalfEven
  rw [h1, Int.floor_intCast, if_pos (by norm_num)]
  push_cast
  ring

theorem pyRound2_fifty : pyRound2 (50 : Rat) = 50 := by
  rw [show ((50 : Rat)) = (((50 : Int)) : Rat) by norm_num, pyRound2_intCast]

theorem pyRound2_eighty : pyRound2 (80 : Rat) = 80 := by
  rw [show ((80 : Rat)) = (((80 : Int)) : Rat) by norm_num, pyRound2_intCast]

theorem thresholdOutcome_some_lt (t : Int) (twc : Rat) (h0 : t ≠ 0)
    (hlt : twc < (t : Rat)) :
    thresholdOutcome (some t) twc = .exitMsg (thresholdMsg t) := by
  simp only [thresholdOutcome]
  rw [if_pos ⟨h0, hlt⟩]

theorem thresholdOutcome_some_ge (t : Int) (twc : Rat) (hge : ¬ twc < (t : Rat)) :
    thresholdOutcome (some t) twc = .exitZero := by
  simp only [thresholdOutcome]
  rw [if_neg (fun hc => hge hc.2)]

/-- Full evaluation of `print_results` on the happy path: no unfound
names, a non-empty package list, a non-zero `totallines`. -/
theorem print_results_eval (pkgs : List Package) (threshold : Option Int)
    (hne : pkgs.isEmpty = false)
    (sumLines : List OutLine) (tl : Nat) (valid : List Package)
    (hsum : summaryPhase pkgs = (sumLines, tl, valid))
    (htl : tl ≠ 0) (twc : Rat)
    (hw : (valid.map fun p =>
      (p.lineCount : Rat) / (tl : Rat) * p.coverage_total.getD 0).sum = twc) :
    print_results pkgs [] [] threshold false =
      { errLines := [],
        outLines := sumLines ++ [OutLine.totalCoverage (pyRound2 twc)],
        outcome := thresholdOutcome threshold twc } := by
  have hwp : weightedPhase valid tl false 0 = ([], .ok twc) := by
    rw [weightedPhase_ok valid tl htl 0, zero_add, hw]
  unfold print_results
  simp [unfoundPhase, hne, hsum, hwp]

/-- Evaluation of `print_results` when every included package has zero
lines: the first division raises `ZeroDivisionError` after the summaries
are printed. -/
theorem print_results_zero_div (pkgs : List Package) (threshold : Option Int)
    (hne : pkgs.isEmpty = false)
    (sumLines : List OutLine) (p : Package) (valid : List Package)
    (hsum : summaryPhase pkgs = (sumLines, 0, p :: valid)) :
    print_results pkgs [] [] threshold false =
      { errLines := [], outLines := sumLines, outcome := .raised .zeroDivision } := by
  have hwp : weightedPhase (p :: valid) 0 false 0 = ([], .error .zeroDivision) := by
    simp [weightedPhase]
  unfold print_results
  simp [unfoundPhase, hne, hsum, hwp]

/-- Summary phase on the 0%-then-80% pair: the 0.0 package is reported
unavailable and excluded. -/
theorem summaryPhase_zero_eighty :
    summaryPhase [pkgCov0, pkgCov80] =
      ([.unavailable "z" "/ws/z",
        .summary "a" "/ws/a" (some 80) (some 80) (some 80)], 100, [pkgCov80]) := by
  simp [summaryPhase, pkgCov0, pkgCov80, covTruthy_some_zero,
    covTruthy_some_ne (by norm_num : (80 : Rat) ≠ 0)]

/-- Summary phase on the spec's worked example pair. -/
theorem summaryPhase_eighty_forty :
    summaryPhase [pkgCov80, pkgCov40] =
      ([.summary "a" "/ws/a" (some 80) (some 80) (some 80),
        .summary "b" "/ws/b" (some 40) (some 40) (some 40)], 400, [pkgCov80, pkgCov40]) := by
  simp [summaryPhase, pkgCov80, pkgCov40,
    covTruthy_some_ne (by norm_num : (80 : Rat) ≠ 0),
    covTruthy_some_ne (by norm_num : (40 : Rat) ≠ 0)]

/-- The weighted sum of the spec's worked example:
(100/400)*80 + (300/400)*40 = 50. -/
theorem weightedSum_eighty_forty :
    (([pkgCov80, pkgCov40]).map fun p =>
      (p.lineCount : Rat) / ((400 : Nat) : Rat) * p.coverage_total.getD 0).sum = 50 := by
  simp [pkgCov80, pkgCov40]
  norm_num

/-! ## The claims -/

/-- C1: a run of the coverage stream parser that succeeds after collecting
the two percentage values a (line coverage) and b (function coverage),
with 0 ≤ a,b ≤ 100, returns coverageTotal = (a+b)/2 exactly and assigns
coverageLines = a, coverageFunctions = b and coverageTotal = (a+b)/2 onto
the package. -/
theorem c1_success_mean (pkg : Package) (stream : List String) (a b : Rat)
    (st : ParseState)
    (htd : pkg.hasTestDir = true)
    (ha0 : 0 ≤ a) (ha1 : a ≤ 100) (hb0 : 0 ≤ b) (hb1 : b ≤ 100)
    (hscan : scanLines initState stream = .ok st)
    (hpcts : st.pcts = [a, b]) :
    (test_package pkg stream).result = .ok ((a + b) / 2) ∧
    (test_package pkg stream).pkgOut.coverage_lines = some a ∧
    (test_package pkg stream).pkgOut.coverage_functions = some b ∧
    (test_package pkg stream).pkgOut.coverage_total = some ((a + b) / 2) := by
  have h := test_package_success pkg stream st a b [] htd hscan hpcts
  exact ⟨h.1, h.2.1, h.2.2.1, h.2.2.2⟩

/-- Witness for C1: a = 10.0, b = 20.0 on a concrete recorded stream;
the parser returns 15.0. -/
theorem c1_success_mean_witness :
    pkgTested.hasTestDir = true ∧
    (0 : Rat) ≤ 10 ∧ (10 : Rat) ≤ 100 ∧ (0 : Rat) ≤ 20 ∧ (20 : Rat) ≤ 100 ∧
    scanLines initState streamTwo =
      .ok { pcts := [10, 20], get_pkg_percentages := false,
            line_coverage := 10, function_coverage := 20 } ∧
    (test_package pkgTested streamTwo).result = .ok 15 := by
  have hscan : scanLines initState streamTwo =
      .ok { pcts := [10, 20], get_pkg_percentages := false,
            line_coverage := 10, function_coverage := 20 } := scan_streamTwo
  refine ⟨rfl, by norm_num, by norm_num, by norm_num, by norm_num, hscan, ?_⟩
  have h := (c1_success_mean pkgTested streamTwo 10 20 _ rfl (by norm_num) (by norm_num)
    (by norm_num) (by norm_num) hscan rfl).1
  have he : ((10 : Rat) + 20) / 2 = 15 := by norm_num
  rw [he] at h
  exact h

/-- C2 (code bug): a failure-count line is never detected.  The marker is
present in the line (re.search finds count 3), but the source uses
re.match, whose anchored attempt at position 0 can never satisfy the
lookbehind, so the match is always None, the count comparison is 0 > 0 and
TestFailedException is unreachable: the run completes with coverage 15.0
instead of failing with TestsFailed. -/
theorem c2_failure_marker_unreachable :
    searchFailedCount "Failed: 3 packages failed." = some 3 ∧
    (∀ line : String, matchFailedTest line = none) ∧
    (test_package pkgTested streamFailure).result = .ok 15 ∧
    (test_package pkgTested streamFailure).result ≠ .error .testFailed := by
  have hres : (test_package pkgTested streamFailure).result = .ok 15 := by
    rw [show (15 : Rat) = ((10 : Rat) + 20) / 2 by norm_num]
    exact (test_package_success pkgTested streamFailure _ 10 20 [] rfl scan_streamFailure rfl).1
  refine ⟨by decide, matchFailedTest_eq_none, hres, ?_⟩
  rw [hres]
  simp

/-- C3 counterexample: a stream with a coverage-rate header but only one
subsequent percentage line fails with IndexError (from pcts[1]), not with
BrokenPattern. -/
theorem c3_one_value_index_error :
    (test_package pkgTested streamOneValue).result = .error .indexError ∧
    (test_package pkgTested streamOneValue).result ≠ .error .brokenRegex := by
  have hres : (test_package pkgTested streamOneValue).result = .error .indexError := by
    simp [test_package, pkgTested, scan_streamOneValue, finishParse]
  refine ⟨hres, ?_⟩
  rw [hres]
  simp

/-- C3 (amended): BrokenRegexException arises in exactly these situations:
(1) while collecting, a line with no decimal-percentage match, and (2) the
stream ends with ZERO percentage values collected — in particular a stream
with no coverage-rate header at all; a stream whose header is followed by
exactly one percentage line instead fails with IndexError. -/
theorem c3_broken_pattern_amended :
    (∀ (st : ParseState) (line : String),
      stepLine st line = .error .brokenRegex ↔
        st.get_pkg_percentages = true ∧ findPctMatch line = none) ∧
    (∀ st : ParseState, finishParse st = .error .brokenRegex ↔ st.pcts = []) ∧
    (∀ (pkg : Package) (stream : List String),
      pkg.hasTestDir = true → (∀ l ∈ stream, matchCoverageHeader l = false) →
      (test_package pkg stream).result = .error .brokenRegex) := by
  refine ⟨?_, finishParse_brokenRegex_iff, ?_⟩
  · intro st line
    rw [stepLine_error_iff]
    exact collectStep_brokenRegex_iff st line
  · intro pkg stream htd hnh
    have hscan := scanLines_no_header hnh initState rfl
    simp [test_package, htd, hscan]
    simp [finishParse, initState]

/-- Witness for C3: a headerless stream fails with BrokenRegexException. -/
theorem c3_broken_pattern_witness :
    pkgTested.hasTestDir = true ∧
    (∀ l ∈ ["catkin build output"], matchCoverageHeader l = false) ∧
    (test_package pkgTested ["catkin build output"]).result = .error .brokenRegex := by
  refine ⟨rfl, by decide, ?_⟩
  exact c3_broken_pattern_amended.2.2 pkgTested ["catkin build output"] rfl (by decide)

/-- C4 counterexample: with a spurious repeated header followed by one
more percentage line the run still succeeds, but coverageFunctions has
been overwritten with 30.0 while coverageTotal stays the mean of the
first two values (15.0), so coverageTotal ≠
mean(coverageLines, coverageFunctions) = 20.0. -/
theorem c4_spurious_header_counterexample :
    (test_package pkgTested streamSpurious).result = .ok 15 ∧
    (test_package pkgTested streamSpurious).pkgOut.coverage_lines = some 10 ∧
    (test_package pkgTested streamSpurious).pkgOut.coverage_functions = some 30 ∧
    (test_package pkgTested streamSpurious).pkgOut.coverage_total = some 15 ∧
    (test_package pkgTested streamSpurious).pkgOut.coverage_total ≠
      some (((10 : Rat) + 30) / 2) := by
  have h := test_package_success pkgTested streamSpurious _ 10 20 [30] rfl scan_streamSpurious rfl
  have hmean : ((10 : Rat) + 20) / 2 = 15 := by norm_num
  have hlast : (([20, 30] : List Rat)).getLastD 0 = 30 := by simp [List.getLastD_cons]
  refine ⟨?_, h.2.1, ?_, ?_, ?_⟩
  · rw [← hmean]
    exact h.1
  · rw [← hlast]
    exact h.2.2.1
  · rw [← hmean]
    exact h.2.2.2
  · rw [h.2.2.2, hmean, show ((10 : Rat) + 30) / 2 = 20 by norm_num]
    simp only [ne_eq, Option.some.injEq]
    norm_num

/-- C4 (amended): on every successful run coverageTotal is the mean of the
FIRST TWO collected values and coverageLines is the first collected value
(both unchanged by later spurious headers), but coverageFunctions is the
LAST collected value, so coverageTotal = mean(coverageLines,
coverageFunctions) is only guaranteed when exactly two values were
collected. -/
theorem c4_first_two_values_amended (pkg : Package) (stream : List String)
    (st : ParseState) (p0 p1 : Rat) (rest : List Rat)
    (htd : pkg.hasTestDir = true)
    (hscan : scanLines initState stream = .ok st)
    (hpcts : st.pcts = p0 :: p1 :: rest) :
    (test_package pkg stream).result = .ok ((p0 + p1) / 2) ∧
    (test_package pkg stream).pkgOut.coverage_total = some ((p0 + p1) / 2) ∧
    (test_package pkg stream).pkgOut.coverage_lines = some p0 ∧
    (test_package pkg stream).pkgOut.coverage_functions = some ((p1 :: rest).getLastD 0) ∧
    (rest = [] →
      (test_package pkg stream).pkgOut.coverage_total =
        some (((test_package pkg stream).pkgOut.coverage_lines.getD 0 +
               (test_package pkg stream).pkgOut.coverage_functions.getD 0) / 2)) := by
  have h := test_package_success pkg stream st p0 p1 rest htd hscan hpcts
  refine ⟨h.1, h.2.2.2, h.2.1, h.2.2.1, ?_⟩
  rintro rfl
  rw [h.2.2.2, h.2.1, h.2.2.1]
  simp

/-- Witness for C4 on the spurious-header stream: three values collected,
result is the mean of the first two. -/
theorem c4_first_two_values_witness :
    pkgTested.hasTestDir = true ∧
    scanLines initState streamSpurious =
      .ok { pcts := [10, 20, 30], get_pkg_percentages := false,
            line_coverage := 10, function_coverage := 30 } ∧
    (test_package pkgTested streamSpurious).result = .ok (((10 : Rat) + 20) / 2) := by
  have hscan : scanLines initState streamSpurious =
      .ok { pcts := [10, 20, 30], get_pkg_percentages := false,
            line_coverage := 10, function_coverage := 30 } := scan_streamSpurious
  exact ⟨rfl, hscan,
    (c4_first_two_values_amended pkgTested streamSpurious _ 10 20 [30] rfl hscan rfl).1⟩

/-- C5 counterexample: for a package without a test directory the call
does return coverage 0, but the runner process HAS been started before the
short-circuit: the Popen of the test command (source line 74) precedes the
test-directory check (source line 81). -/
theorem c5_runner_started_counterexample :
    (test_package pkgNoTests []).result = .ok 0 ∧
    ExtCall.runnerStart ∈ (test_package pkgNoTests []).events := by
  rw [test_package_skip pkgNoTests [] rfl]
  exact ⟨rfl, by decide⟩

/-- C5 (amended): a package whose hasTestDir flag is false yields coverage
0 with the package left unmutated, but only after the configuration
command and the runner process have already been started; the runner's
output stream is never consumed. -/
theorem c5_no_testdir_amended (pkg : Package) (stream : List String)
    (h : pkg.hasTestDir = false) :
    test_package pkg stream =
      { events := [ExtCall.configCmd, ExtCall.runnerStart],
        result := .ok 0, pkgOut := pkg } :=
  test_package_skip pkg stream h

/-- Witness for C5 at a concrete package and stream. -/
theorem c5_no_testdir_witness :
    pkgNoTests.hasTestDir = false ∧
    test_package pkgNoTests ["any line"] =
      { events := [ExtCall.configCmd, ExtCall.runnerStart],
        result := .ok 0, pkgOut := pkgNoTests } :=
  ⟨rfl, c5_no_testdir_amended pkgNoTests ["any line"] rfl⟩

/-- C6 (code bug): reporting with a non-empty unfound list crashes instead
of removing the names and printing the found packages' summaries.
`packages.remove(pkg)` removes by equality from a list of Package objects
with a name STRING as argument, and no Package instance ever compares
equal to a str, so `list.remove` raises ValueError right after the first
diagnostic line: no summary for "a" is ever printed. -/
theorem c6_unfound_remove_crash :
    print_results [pkgCov80] ["b"] [] none false =
      { errLines := ["Package not found: b"], outLines := [],
        outcome := .raised .valueError } ∧
    (∀ (l : List Package) (s : String), pyListRemove l s = .error .valueError) := by
  constructor
  · have hstr : "Package not found: " ++ "b" = "Package not found: b" := by decide
    simp [print_results, unfoundPhase, pyListRemove_error, hstr]
  · exact pyListRemove_error

/-- C7 counterexample: the aggregation is NOT over the packages with a set
(non-None) coverageTotal.  With packages z (100 lines, coverageTotal 0.0)
and a (100 lines, coverageTotal 80.0), the spec's formula over the set
coverageTotals yields 40, but the code classifies z as unavailable
(0.0 is falsy), excludes it from totalLines, and prints 80. -/
theorem c7_set_zero_counterexample :
    specWeightedTotal [pkgCov0, pkgCov80] = 40 ∧
    print_results [pkgCov0, pkgCov80] [] [] none false =
      { errLines := [],
        outLines := [.unavailable "z" "/ws/z",
                     .summary "a" "/ws/a" (some 80) (some 80) (some 80),
                     .totalCoverage 80],
        outcome := .exitZero } ∧
    (80 : Rat) ≠ 40 := by
  refine ⟨?_, ?_, by norm_num⟩
  · simp [specWeightedTotal, pkgCov0, pkgCov80]
    norm_num
  · have h := print_results_eval [pkgCov0, pkgCov80] none rfl _ 100 [pkgCov80]
      summaryPhase_zero_eighty (by norm_num) 80 (by norm_num [pkgCov80])
    rw [h, pyRound2_eighty]
    rfl

/-- C7 (amended): the aggregator computes
weightedTotal = Σ (lineCount/totalLines)·coverageTotal over exactly the
packages whose coverageTotal is truthy (set AND non-zero), with totalLines
summed over that same set; the spec's worked example
{(100 lines, 80%), (300 lines, 40%)} yields exactly 50.00. -/
theorem c7_weighted_total_amended :
    (∀ pkgs : List Package,
      (summaryPhase pkgs).2.2 = pkgs.filter (fun p => covTruthy p.coverage_total) ∧
      (summaryPhase pkgs).2.1 =
        ((pkgs.filter fun p => covTruthy p.coverage_total).map Package.lineCount).sum) ∧
    (∀ (valid : List Package) (tl : Nat), tl ≠ 0 → ∀ acc : Rat,
      (weightedPhase valid tl false acc).2 =
        .ok (acc + (valid.map fun p =>
          (p.lineCount : Rat) / (tl : Rat) * p.coverage_total.getD 0).sum)) ∧
    print_results [pkgCov80, pkgCov40] [] [] none false =
      { errLines := [],
        outLines := [.summary "a" "/ws/a" (some 80) (some 80) (some 80),
                     .summary "b" "/ws/b" (some 40) (some 40) (some 40),
                     .totalCoverage 50],
        outcome := .exitZero } := by
  refine ⟨fun pkgs => ⟨summaryPhase_valid pkgs, summaryPhase_totallines pkgs⟩,
    fun valid tl htl acc => by rw [weightedPhase_ok valid tl htl acc], ?_⟩
  have h := print_results_eval [pkgCov80, pkgCov40] none rfl _ 400 [pkgCov80, pkgCov40]
    summaryPhase_eighty_forty (by norm_num) 50 weightedSum_eighty_forty
  rw [h, pyRound2_fifty]
  rfl

/-- Witness for C7 at the worked example's included list. -/
theorem c7_weighted_total_witness :
    (400 : Nat) ≠ 0 ∧
    (weightedPhase [pkgCov80, pkgCov40] 400 false 0).2 =
      .ok (0 + (([pkgCov80, pkgCov40]).map fun p =>
        (p.lineCount : Rat) / ((400 : Nat) : Rat) * p.coverage_total.getD 0).sum) :=
  ⟨by norm_num, c7_weighted_total_amended.2.1 [pkgCov80, pkgCov40] 400 (by norm_num) 0⟩

/-- C8: with a threshold set, the run exits non-zero exactly when the
weighted total is strictly below it (given the weighted total is
non-negative, which holds whenever the included coverage values are), the
exit message states the rounded threshold, and the results are printed
before the exit; threshold 60 against total 50.00 exits non-zero with the
total line printed, threshold 40 exits zero, no threshold exits zero. -/
theorem c8_threshold_exit :
    (∀ (t : Int) (twc : Rat), 0 ≤ twc →
      (thresholdOutcome (some t) twc = .exitMsg (thresholdMsg t) ↔ twc < (t : Rat))) ∧
    (∀ twc : Rat, thresholdOutcome none twc = .exitZero) ∧
    (∀ (valid : List Package) (tl : Nat) (acc twc : Rat), 0 ≤ acc →
      (∀ p ∈ valid, 0 ≤ p.coverage_total.getD 0) →
      (weightedPhase valid tl false acc).2 = .ok twc → 0 ≤ twc) ∧
    ((print_results [pkgCov80, pkgCov40] [] [] (some 60) false).outcome =
        .exitMsg (thresholdMsg 60) ∧
      OutLine.totalCoverage 50 ∈
        (print_results [pkgCov80, pkgCov40] [] [] (some 60) false).outLines) ∧
    (print_results [pkgCov80, pkgCov40] [] [] (some 40) false).outcome = .exitZero := by
  have h60 := print_results_eval [pkgCov80, pkgCov40] (some 60) rfl _ 400
    [pkgCov80, pkgCov40] summaryPhase_eighty_forty (by norm_num) 50 weightedSum_eighty_forty
  have h40 := print_results_eval [pkgCov80, pkgCov40] (some 40) rfl _ 400
    [pkgCov80, pkgCov40] summaryPhase_eighty_forty (by norm_num) 50 weightedSum_eighty_forty
  refine ⟨?_, fun twc => rfl,
    fun valid tl acc twc hacc hall h => weightedPhase_nonneg valid tl acc twc hacc hall h,
    ⟨?_, ?_⟩, ?_⟩
  · intro t twc h0
    constructor
    · intro he
      by_contra hlt
      rw [thresholdOutcome_some_ge t twc hlt] at he
      exact absurd he (by simp)
    · intro hlt
      have ht0 : t ≠ 0 := by
        intro hc
        subst hc
        rw [Int.cast_zero] at hlt
        exact absurd hlt (not_lt.mpr h0)
      exact thresholdOutcome_some_lt t twc ht0 hlt
  · rw [h60]
    exact thresholdOutcome_some_lt 60 50 (by norm_num) (by norm_num)
  · rw [h60, pyRound2_fifty]
    simp
  · rw [h40]
    exact thresholdOutcome_some_ge 40 50 (by norm_num)

/-- Witness for C8 at threshold 60 and weighted total 50. -/
theorem c8_threshold_exit_witness :
    (0 : Rat) ≤ 50 ∧
    (thresholdOutcome (some 60) 50 = .exitMsg (thresholdMsg 60) ↔
      (50 : Rat) < ((60 : Int) : Rat)) :=
  ⟨by norm_num, c8_threshold_exit.1 60 50 (by norm_num)⟩

/-- C9 counterexample: a single included package with lineCount 0 makes
totalLines 0 and the weighted-sum computation raises ZeroDivisionError
(Python raises it for 0.0/0.0 too) instead of avoiding a division
error. -/
theorem c9_zero_total_lines_counterexample :
    (print_results [pkgNoLines] [] [] none false).outcome = .raised .zeroDivision := by
  have hsum : summaryPhase [pkgNoLines] =
      ([.summary "w" "/ws/w" (some 50) (some 50) (some 50)], 0, [pkgNoLines]) := by
    simp [summaryPhase, pkgNoLines, covTruthy_some_ne (by norm_num : (50 : Rat) ≠ 0)]
  rw [print_results_zero_div [pkgNoLines] none rfl _ pkgNoLines [] hsum]

/-- C9 (amended): a package with lineCount 0 contributes 0 to the weighted
sum whenever totalLines is non-zero; but when totalLines is 0 and at least
one package is included, the computation raises ZeroDivisionError. -/
theorem c9_zero_lines_amended :
    (∀ (p : Package) (valid : List Package) (tl : Nat) (acc : Rat),
      tl ≠ 0 → p.lineCount = 0 →
      (weightedPhase (p :: valid) tl false acc).2 = (weightedPhase valid tl false acc).2) ∧
    (∀ (p : Package) (valid : List Package) (v : Bool) (acc : Rat),
      (weightedPhase (p :: valid) 0 v acc).2 = .error .zeroDivision) :=
  ⟨fun p valid tl acc htl hp => weightedPhase_zero_head p valid tl acc htl hp,
   fun p valid v acc => weightedPhase_zero_totallines p valid v acc⟩

/-- Witness for C9: the zero-line package contributes nothing at
totalLines 100. -/
theorem c9_zero_lines_witness :
    (100 : Nat) ≠ 0 ∧ pkgNoLines.lineCount = 0 ∧
    (weightedPhase (pkgNoLines :: [pkgCov80]) 100 false 0).2 =
      (weightedPhase [pkgCov80] 100 false 0).2 :=
  ⟨by norm_num, rfl, c9_zero_lines_amended.1 pkgNoLines [pkgCov80] 100 0 (by norm_num) rfl⟩

/-- C10: a coverage result of exactly 0.0 is indistinguishable from no
result: a tested package for which the parser returns 0.0 makes the main
loop exit with the no-coverage-data error (0.0 is falsy), and in the
report a package whose coverageTotal is 0.0 is classified unavailable and
excluded from the weighted sum and from totalLines. -/
theorem c10_zero_indistinguishable :
    (∀ (pkg : Package) (stream : List String), pkg.hasTestDir = true →
      (test_package pkg stream).result = .ok 0 →
      main_step pkg stream = .exitNoData pkg.name) ∧
    (∀ (p : Package) (rest : List Package), p.coverage_total = some 0 →
      summaryPhase (p :: rest) =
        (OutLine.unavailable p.name p.path :: (summaryPhase rest).1,
         (summaryPhase rest).2.1, (summaryPhase rest).2.2)) := by
  constructor
  · intro pkg stream htd hres
    simp [main_step, htd, hres]
  · intro p rest hp
    exact summaryPhase_cons_untruthy p rest (by rw [hp]; exact covTruthy_some_zero)

/-- Witness for C10: both 0.0% percentages make the parser return 0.0,
the main loop exits with the no-data error, and a 0.0 package is reported
unavailable with nothing accumulated. -/
theorem c10_zero_indistinguishable_witness :
    pkgTested.hasTestDir = true ∧
    (test_package pkgTested streamZeros).result = .ok 0 ∧
    main_step pkgTested streamZeros = .exitNoData "pkg" ∧
    pkgCov0.coverage_total = some 0 ∧
    summaryPhase [pkgCov0] = ([OutLine.unavailable "z" "/ws/z"], 0, []) := by
  have hres : (test_package pkgTested streamZeros).result = .ok 0 := by
    rw [show (0 : Rat) = ((0 : Rat) + 0) / 2 by norm_num]
    exact (test_package_success pkgTested streamZeros _ 0 0 [] rfl scan_streamZeros rfl).1
  refine ⟨rfl, hres, c10_zero_indistinguishable.1 pkgTested streamZeros rfl hres, rfl, ?_⟩
  have h := c10_zero_indistinguishable.2 pkgCov0 [] rfl
  simpa [pkgCov0, summaryPhase] using h

end CodeCoverage
